import Mathlib

/-!
Verification of the multiregex prematcher library against its specification.

The development shallowly embeds the package's core (`src/multiregex/__init__.py`,
the current revision; the historical revision `src/src/multiregex/__init__.py` is
embedded separately where the two differ).  Patterns are identified by their
registration index (a natural number); a matcher is represented by the list of
per-pattern prematcher string sets, which is the only construction-time state
that the candidate resolver and the matching facade consult.  The external regex
engine (`re.search` / `re.match` / `re.fullmatch`) is an abstract parameter
`matchFunc : Nat -> String -> Option A`, exactly as `RegexMatcher.run` treats it.
-/

/-- Models Python's per-character `str.isupper` on the character ranges used in
this development: uppercase ASCII letters `A`-`Z` and the Latin-1 uppercase
letters `U+00C0`-`U+00DE` (excluding the multiplication sign `U+00D7`) are
uppercase; every other character of the Basic Latin and Latin-1 blocks is not.
All strings appearing in this development stay within these blocks. -/
def pyIsUpper (c : Char) : Bool :=
  (65 ≤ c.toNat && c.toNat ≤ 90) ||
    (192 ≤ c.toNat && c.toNat ≤ 222 && c.toNat ≠ 215)

/-- Models Python's per-character `str.lower` on the same character ranges as
`pyIsUpper`: an uppercase character is shifted by 32 to its lowercase
counterpart; every other character is unchanged. -/
def pyCharLower (c : Char) : Char :=
  if pyIsUpper c then Char.ofNat (c.toNat + 32) else c

/-- Models Python's `str.lower`, applied character by character. -/
def pyLower (s : String) : String :=
  String.mk (s.toList.map pyCharLower)

/-- Embeds `to_lowercase_ascii` of the historical revision
(`src/src/multiregex/__init__.py`):
`s.lower().encode("ascii", errors="ignore").decode()`, i.e. lowercase and then
drop every character outside the ASCII range, concatenating the survivors. -/
def to_lowercase_ascii (s : String) : String :=
  String.mk ((s.toList.map pyCharLower).filter (fun c => c.toNat < 128))

/-- Boolean ASCII test for a string: every character is below code point 128.
Used to state claims that speak about "non-ASCII characters". -/
def asciiOnly (s : String) : Bool :=
  s.toList.all (fun c => c.toNat < 128)

/-- Substring containment test: `needle` occurs contiguously inside `hay`.
This is the semantic content of one pyahocorasick needle hit. -/
def strContains (hay needle : String) : Bool :=
  decide (List.IsInfix needle.toList hay.toList)

/-- Embeds `validate_prematcher` (`src/multiregex/__init__.py`, lines 257-261):
`if not prematcher or any(map(str.isupper, prematcher)): raise ValueError(...)`.
The failure is modelled as `Except.error` carrying the message. -/
def validate_prematcher (prematcher : String) : Except String Unit :=
  if prematcher = "" || prematcher.toList.any pyIsUpper then
    Except.error "Prematcher must be non-empty, all-lowercase, all-ASCII"
  else
    Except.ok ()

/-- Boolean discriminator for `Except`, true exactly on `Except.error`. -/
def exceptIsErr : Except String α → Bool
  | Except.error _ => true
  | Except.ok _ => false

/-- Test lemma: the validator accepts a plain lowercase ASCII token. -/
example : validate_prematcher "abc" = Except.ok () := by rfl

/-- Test lemma: the validator rejects the empty token and uppercase tokens. -/
example : exceptIsErr (validate_prematcher "") = true ∧
    exceptIsErr (validate_prematcher "UPPER") = true := by
  exact ⟨by rfl, by rfl⟩

/-- C2 counterexample: the token `"ä"` is non-empty and contains a non-ASCII
character, so the claim says validation must fail; but `validate_prematcher`
only tests emptiness and `str.isupper`, and `"ä"` has no uppercase character,
so the code accepts it. -/
theorem validate_prematcher_accepts_nonascii :
    validate_prematcher "ä" = Except.ok () ∧ asciiOnly "ä" = false := by
  exact ⟨by rfl, by rfl⟩

/-- C2 amended: the validator fails if and only if the token is empty or
contains a character that Python's `str.isupper` classifies as uppercase;
ASCII-ness is not checked, so lowercase non-ASCII tokens are accepted. -/
theorem validate_prematcher_iff (prematcher : String) :
    exceptIsErr (validate_prematcher prematcher) = true ↔
      (prematcher = "" ∨ ∃ c ∈ prematcher.toList, pyIsUpper c = true) := by
  unfold validate_prematcher
  by_cases h : (prematcher = "" || prematcher.toList.any pyIsUpper) = true
  · simp only [h, if_pos, exceptIsErr]
    simp only [Bool.or_eq_true, decide_eq_true_eq, List.any_eq_true] at h
    simpa using h
  · simp only [h, if_neg, exceptIsErr]
    simp only [Bool.or_eq_true, decide_eq_true_eq, List.any_eq_true] at h
    push_neg at h
    simpa using h

/-- Witness for `validate_prematcher_iff`: at the concrete token `"Abc"`
the right-hand side holds (it contains the uppercase `A`), and the theorem
yields that validation fails there. -/
theorem validate_prematcher_iff_witness :
    exceptIsErr (validate_prematcher "Abc") = true :=
  (validate_prematcher_iff "Abc").mpr (Or.inr ⟨'A', by decide, by decide⟩)

/-- Model of the sre parse tree nodes that `generate_prematchers` inspects.
The Python code only ever distinguishes `LITERAL` nodes (a code point),
`SUBPATTERN` nodes (group number, added flags, deleted flags, inner AST) and
`BRANCH` nodes (list of alternative ASTs); every other opcode (`IN`,
`MAX_REPEAT`, `AT`, `ANY`, ...) is only used as a boundary that terminates a
literal run, so all of those are collapsed into the `other` constructor.
An sre AST, as in `sre_parse`, is a list of nodes. -/
inductive SreNode where
  | literal (c : Nat)
  | subpattern (group addFlags delFlags : Nat) (p : List SreNode)
  | branch (children : List (List SreNode))
  | other

/-- Inner loop of `_sre_find_terminals` (`src/multiregex/__init__.py`, lines
313-322): walk the AST, collecting maximal streaks of `LITERAL` code points
into strings; each non-literal node ends the current streak (yielding it) and
is skipped.  The accumulator holds the streak collected so far. -/
def terminalsGo : String → List SreNode → List String
  | acc, [] => [acc]
  | acc, SreNode.literal c :: rest => terminalsGo (acc.push (Char.ofNat c)) rest
  | acc, _ :: rest => if rest.isEmpty then [acc] else acc :: terminalsGo "" rest

/-- Embeds `_sre_find_terminals`: all terminals (streaks of `LITERAL`s) of an
sre AST, in order.  The Python generator yields nothing on an empty AST (the
`while` loop is never entered). -/
def sre_find_terminals (sre_ast : List SreNode) : List String :=
  match sre_ast with
  | [] => []
  | _ => terminalsGo "" sre_ast

/-- Test lemma: terminal extraction on a literal-boundary-literal AST. -/
example :
    sre_find_terminals [SreNode.literal 97, SreNode.other, SreNode.literal 98] =
      ["a", "b"] := by rfl

/-- Test lemma: a trailing boundary does not yield an extra empty terminal,
while consecutive boundaries do yield empty terminals in between. -/
example :
    sre_find_terminals [SreNode.literal 97, SreNode.other] = ["a"] ∧
    sre_find_terminals [SreNode.other, SreNode.other] = ["", ""] := by
  exact ⟨by rfl, by rfl⟩

/-- Models Python's `max(iterable, key=len, default="")`: the first string of
maximal length, or `""` if the list is empty. -/
def pyMaxByLen (l : List String) : String :=
  l.foldl (fun best s => if best.length < s.length then s else best) ""

/-- Embeds `_get_top_level_prematcher` (inner function of
`generate_prematchers`, current revision): the longest terminal of the AST,
lowercased after the maximum is taken. -/
def get_top_level_prematcher (sre_ast : List SreNode) : String :=
  pyLower (pyMaxByLen (sre_find_terminals sre_ast))

/-- Embeds `_simplify_sre_ast` (`src/multiregex/__init__.py`, lines 297-310):
an AST that is exactly one `SUBPATTERN` with no added and no deleted inline
flags is replaced by its inner AST; anything else is returned unchanged.
(The Python-<3.6 two-tuple compatibility branch is dead on every supported
interpreter and is not modelled.) -/
def simplify_sre_ast : List SreNode → List SreNode
  | [SreNode.subpattern group addFlags delFlags p] =>
      if addFlags = 0 ∧ delFlags = 0 then p
      else [SreNode.subpattern group addFlags delFlags p]
  | sre_ast => sre_ast

/-- Embeds the branch-case loop of `generate_prematchers` (lines 283-294):
iterate over the top-level `BRANCH` nodes; for the first one all of whose
simplified children have a non-empty top-level prematcher, return the set of
those child prematchers; if no branch node qualifies, fail (`none`).  Python
collects the child prematchers into a `set`; the model uses `List.dedup`,
which is the same collection up to order, and only order-insensitive facts are
proved about it. -/
def branchPrematchers : List SreNode → Option (List String)
  | [] => none
  | SreNode.branch children :: rest =>
      let child_prematchers :=
        (children.map (fun child =>
          get_top_level_prematcher (simplify_sre_ast child))).dedup
      if child_prematchers.all (fun s => decide (s ≠ "")) then
        some child_prematchers
      else branchPrematchers rest
  | _ :: rest => branchPrematchers rest

/-- Embeds `generate_prematchers` (`src/multiregex/__init__.py`, lines
264-294), taking the already-parsed sre AST of the pattern (parsing itself is
done by the external `sre_parse` collaborator).  Simple case: the longest
top-level terminal, if non-empty, is the singleton prematcher set.  Branch
case: see `branchPrematchers`.  Otherwise generation fails with `ValueError`,
modelled as `Except.error`. -/
def generate_prematchers (pattern_ast : List SreNode) :
    Except String (List String) :=
  let sre_ast := simplify_sre_ast pattern_ast
  let top_level_prematcher := get_top_level_prematcher sre_ast
  if top_level_prematcher ≠ "" then Except.ok [top_level_prematcher]
  else
    match branchPrematchers sre_ast with
    | some child_prematchers => Except.ok child_prematchers
    | none => Except.error "Could not generate prematchers"

/-- The sre AST of the pattern `"a"`: `sre_parse.parse("a") = [(LITERAL, 97)]`. -/
def astLiteralA : List SreNode := [SreNode.literal 97]

/-- The sre AST of the pattern `"[a]"`: `sre_parse` optimizes a single-literal
character class to the literal itself, so `parse("[a]") = [(LITERAL, 97)]`. -/
def astClassA : List SreNode := [SreNode.literal 97]

/-- The sre AST of the pattern `"a[0-9]+b"`:
`[(LITERAL, 97), (MAX_REPEAT, (1, MAXREPEAT, [(IN, [(RANGE, (48, 57))])])), (LITERAL, 98)]`;
the repeat node is a boundary, modelled as `other`. -/
def astADigitsB : List SreNode :=
  [SreNode.literal 97, SreNode.other, SreNode.literal 98]

/-- The sre AST of the pattern `"aaa|bb"`:
`[(BRANCH, (None, [[(LITERAL, 97)] * 3, [(LITERAL, 98)] * 2]))]`. -/
def astAaaBb : List SreNode :=
  [SreNode.branch
    [[SreNode.literal 97, SreNode.literal 97, SreNode.literal 97],
     [SreNode.literal 98, SreNode.literal 98]]]

/-- The sre AST of the pattern `"aaa|bb|c"`: one `BRANCH` with three children. -/
def astAaaBbC : List SreNode :=
  [SreNode.branch
    [[SreNode.literal 97, SreNode.literal 97, SreNode.literal 97],
     [SreNode.literal 98, SreNode.literal 98],
     [SreNode.literal 99]]]

/-- The sre AST of the pattern `"aa|"`: one `BRANCH` whose second child is the
empty AST. -/
def astAaEmpty : List SreNode :=
  [SreNode.branch [[SreNode.literal 97, SreNode.literal 97], []]]

/-- The sre AST of the pattern `"(aa|(bb|cc))"`: a `SUBPATTERN` (group 1, no
flag changes) around a `BRANCH` whose second child is itself a `SUBPATTERN`
(group 2) around the inner `BRANCH` of `bb|cc`. -/
def astNestedAlt : List SreNode :=
  [SreNode.subpattern 1 0 0
    [SreNode.branch
      [[SreNode.literal 97, SreNode.literal 97],
       [SreNode.subpattern 2 0 0
         [SreNode.branch
           [[SreNode.literal 98, SreNode.literal 98],
            [SreNode.literal 99, SreNode.literal 99]]]]]]]

/-- C5: the prematcher generator maps each entry of the spec's literal table to
exactly the stated result.  The branch-case results are lists standing for the
sets `{"aaa", "bb"}` and `{"aaa", "bb", "c"}`, and generation raises for
`"aa|"` and `"(aa|(bb|cc))"`. -/
theorem generate_prematchers_literal_table :
    generate_prematchers astLiteralA = Except.ok ["a"] ∧
    generate_prematchers astClassA = Except.ok ["a"] ∧
    generate_prematchers astADigitsB = Except.ok ["a"] ∧
    generate_prematchers astAaaBb = Except.ok ["aaa", "bb"] ∧
    generate_prematchers astAaaBbC = Except.ok ["aaa", "bb", "c"] ∧
    exceptIsErr (generate_prematchers astAaEmpty) = true ∧
    exceptIsErr (generate_prematchers astNestedAlt) = true := by
  exact ⟨by rfl, by rfl, by rfl, by rfl, by rfl, by rfl, by rfl⟩

/-- Helper: the top-level prematcher of a single-alternation AST is empty (the
`BRANCH` node is a boundary, so the only terminal is `""`), hence the simple
case of `generate_prematchers` never fires there. -/
theorem top_level_prematcher_branch (children : List (List SreNode)) :
    get_top_level_prematcher [SreNode.branch children] = "" := rfl

/-- Helper: the nonemptiness test Python runs on the set of child prematchers
is equivalent to every branch child yielding a non-empty prematcher. -/
theorem branch_all_nonempty_iff (children : List (List SreNode)) :
    ((children.map (fun child =>
        get_top_level_prematcher (simplify_sre_ast child))).dedup.all
          (fun s => decide (s ≠ "")) = true) ↔
      ∀ child ∈ children, get_top_level_prematcher (simplify_sre_ast child) ≠ "" := by
  simp only [List.all_eq_true, List.mem_dedup, List.mem_map, decide_eq_true_eq]
  constructor
  · intro h child hmem
    exact h _ ⟨child, hmem, rfl⟩
  · rintro h s ⟨child, hmem, rfl⟩
    exact h child hmem

/-- C6: for a top-level AST that is exactly one alternation, generation
returns the set of the branches' longest terminals (after one-group
simplification of each branch) if and only if every branch yields a non-empty
terminal; and if some branch yields an empty terminal, generation fails for
the whole pattern. -/
theorem generate_prematchers_branch_iff (children : List (List SreNode)) :
    (generate_prematchers [SreNode.branch children] =
        Except.ok ((children.map (fun child =>
          get_top_level_prematcher (simplify_sre_ast child))).dedup)
      ↔ ∀ child ∈ children,
          get_top_level_prematcher (simplify_sre_ast child) ≠ "") ∧
    ((∃ child ∈ children,
        get_top_level_prematcher (simplify_sre_ast child) = "") →
      generate_prematchers [SreNode.branch children] =
        Except.error "Could not generate prematchers") := by
  have hgen : generate_prematchers [SreNode.branch children] =
      (match branchPrematchers [SreNode.branch children] with
       | some child_prematchers => Except.ok child_prematchers
       | none => Except.error "Could not generate prematchers") := rfl
  have hbp : branchPrematchers [SreNode.branch children] =
      (if ((children.map (fun child =>
            get_top_level_prematcher (simplify_sre_ast child))).dedup.all
              (fun s => decide (s ≠ ""))) = true then
        some ((children.map (fun child =>
          get_top_level_prematcher (simplify_sre_ast child))).dedup)
      else none) := by
    simp only [branchPrematchers]
  by_cases hall : ((children.map (fun child =>
      get_top_level_prematcher (simplify_sre_ast child))).dedup.all
        (fun s => decide (s ≠ ""))) = true
  · rw [hbp, if_pos hall] at hgen
    constructor
    · rw [hgen]
      simp only [true_iff]
      exact fun child hmem =>
        (branch_all_nonempty_iff children).mp hall child hmem
    · rintro ⟨child, hmem, hempty⟩
      exact absurd ((branch_all_nonempty_iff children).mp hall child hmem) (by
        simp [hempty])
  · rw [hbp, if_neg hall] at hgen
    constructor
    · rw [hgen]
      constructor
      · intro h
        exact absurd h (by simp)
      · intro h
        exact absurd ((branch_all_nonempty_iff children).mpr h) hall
    · intro _
      exact hgen

/-- Witness for `generate_prematchers_branch_iff`: for the concrete
alternation `"aa|"` (children `[[LITERAL 97, LITERAL 97], []]`) the second
branch yields the empty terminal, and the theorem gives that generation fails. -/
theorem generate_prematchers_branch_iff_witness :
    generate_prematchers [SreNode.branch [[SreNode.literal 97], []]] =
      Except.error "Could not generate prematchers" :=
  (generate_prematchers_branch_iff [[SreNode.literal 97], []]).2
    ⟨[], by simp, by rfl⟩

/-- Model of the `prematchers` component of a `(pattern, prematchers)` tuple:
either a string (the misuse that `safe_set` guards against) or a proper
iterable of prematcher strings. -/
inductive PmCollection where
  | ofString (s : String)
  | ofList (ws : List String)

/-- Model of one element of the `patterns` argument of `RegexMatcher.__init__`:
a bare pattern (a pattern source string or compiled pattern) or a
`(pattern, prematchers)` tuple whose second component is `None` or a
`PmCollection`. -/
inductive PatternsItem where
  | pat (source : String)
  | pair (source : String) (pm : Option PmCollection)

/-- Model of the whole `patterns` argument: either a single string (the misuse
discussed by the spec) or a sequence of items. -/
inductive PatternsArg where
  | ofString (s : String)
  | ofList (items : List PatternsItem)

/-- Models `list(patterns)` at the top of `_normalize_patterns`: iterating a
string yields its characters as one-character strings, each a bare pattern;
iterating a list yields its items. -/
def pyIter : PatternsArg → List PatternsItem
  | PatternsArg.ofString s =>
      s.toList.map (fun c => PatternsItem.pat (String.mk [c]))
  | PatternsArg.ofList items => items

/-- Python's `isinstance(x, tuple)` on a patterns item. -/
def isTuple : PatternsItem → Bool
  | PatternsItem.pair _ _ => true
  | PatternsItem.pat _ => false

/-- One element of the first branch of `_normalize_patterns`
(`(re.compile(pattern), None)`): `re.compile` of a pattern source or compiled
pattern succeeds (compilation of invalid regex sources is outside every claim
and is modelled as total), while `re.compile` of a tuple raises `TypeError`. -/
def compileBare : PatternsItem → Except String (String × Option (List String))
  | PatternsItem.pat source => Except.ok (source, none)
  | PatternsItem.pair _ _ =>
      Except.error "re.compile: first argument must be string or compiled pattern"

/-- One element of the second branch of `_normalize_patterns`
(`(re.compile(pattern), None if prematchers is None else safe_set(prematchers))`).
A string in the prematchers position hits `safe_set`'s `isinstance(..., str)`
guard and raises `TypeError`; a proper iterable is turned into a set (modelled
as a deduplicated list).  A bare element in this branch fails tuple unpacking
(a two-character string unpacks, but then its second character is a string
prematchers value and `safe_set` raises anyway), so it is an error in every
case. -/
def compilePair : PatternsItem → Except String (String × Option (List String))
  | PatternsItem.pair source none => Except.ok (source, none)
  | PatternsItem.pair _ (some (PmCollection.ofString _)) =>
      Except.error "Refusing to interpret as a list of patterns, pass a list of strings instead"
  | PatternsItem.pair source (some (PmCollection.ofList ws)) =>
      Except.ok (source, some ws.dedup)
  | PatternsItem.pat _ =>
      Except.error "cannot unpack element into (pattern, prematchers)"

/-- Embeds `_normalize_patterns` (`src/multiregex/__init__.py`, lines 114-136):
materialize the argument, then branch on whether the first element is a tuple;
the comprehension of the chosen branch runs left to right and the first
elementwise error aborts it (modelled by `mapM`).  An empty argument takes the
tuple branch over zero elements and yields the empty list. -/
def normalize_patterns (patterns : PatternsArg) :
    Except String (List (String × Option (List String))) :=
  match pyIter patterns with
  | [] => Except.ok []
  | first :: rest =>
      if isTuple first = false then (first :: rest).mapM compileBare
      else (first :: rest).mapM compilePair

/-- Helper: bare compilation of a list of single-character bare patterns
succeeds and marks every pattern for automatic prematcher generation. -/
theorem mapM_compileBare_chars (cs : List Char) :
    (cs.map (fun c => PatternsItem.pat (String.mk [c]))).mapM compileBare =
      Except.ok (cs.map (fun c => (String.mk [c], (none : Option (List String))))) := by
  induction cs with
  | nil => rfl
  | cons c rest ih =>
      simp only [List.map_cons, List.mapM_cons, ih, compileBare]
      rfl

/-- C4 counterexample: passing the single string `"ab"` as the `patterns`
argument does not fail; `_normalize_patterns` silently produces the
one-pattern-per-character list (each with automatic prematcher generation
requested), contradicting the claim that construction fails fast.  The
remaining construction stages then succeed for these one-character patterns
(their generated prematchers are the characters themselves). -/
theorem normalize_patterns_string_arg_no_error :
    normalize_patterns (PatternsArg.ofString "ab") =
      Except.ok [("a", none), ("b", none)] ∧
    exceptIsErr (normalize_patterns (PatternsArg.ofString "ab")) = false := by
  exact ⟨by rfl, by rfl⟩

/-- C4 amended: a single string passed as the `patterns` argument is accepted
and treated as a sequence of its characters, each becoming a one-character
pattern with automatic prematcher generation; the fail-fast `TypeError` guard
exists only for a string passed in the prematchers position of a
`(pattern, prematchers)` tuple, where it aborts construction no matter what
follows. -/
theorem normalize_patterns_string_behavior (s : String) (source pm : String)
    (rest : List PatternsItem) :
    normalize_patterns (PatternsArg.ofString s) =
      Except.ok (s.toList.map (fun c => (String.mk [c], none))) ∧
    exceptIsErr (normalize_patterns (PatternsArg.ofList
      (PatternsItem.pair source (some (PmCollection.ofString pm)) :: rest))) =
        true := by
  constructor
  · cases hs : s.toList with
    | nil =>
        have hd : s.data = [] := hs
        simp [normalize_patterns, pyIter, hs, hd]
    | cons c cs =>
        have hd : s.data = c :: cs := hs
        simp only [normalize_patterns, pyIter, hs, hd, List.map_cons]
        rw [if_pos (by rfl)]
        rw [show (PatternsItem.pat (String.mk [c]) ::
            cs.map (fun c => PatternsItem.pat (String.mk [c]))) =
          ((c :: cs).map (fun c => PatternsItem.pat (String.mk [c]))) from rfl]
        rw [mapM_compileBare_chars]
        simp
  · rfl

/-- Helper: whenever the bare branch of `_normalize_patterns` succeeds, every
produced pattern is marked for automatic prematcher generation (`None`). -/
theorem mapM_compileBare_auto (items : List PatternsItem)
    (result : List (String × Option (List String)))
    (h : items.mapM compileBare = Except.ok result) :
    ∀ x ∈ result, x.2 = none := by
  induction items generalizing result with
  | nil =>
      simp only [List.mapM_nil] at h
      cases h
      intro x hx
      cases hx
  | cons a rest ih =>
      cases a with
      | pat source =>
          simp only [List.mapM_cons, compileBare] at h
          cases hrest : rest.mapM compileBare with
          | error e => rw [hrest] at h; cases h
          | ok tl =>
              rw [hrest] at h
              have : (source, (none : Option (List String))) :: tl = result := by
                cases h; rfl
              subst this
              intro x hx
              rcases List.mem_cons.mp hx with hx | hx
              · rw [hx]
              · exact ih tl hrest x hx
      | pair source pm =>
          simp only [List.mapM_cons, compileBare] at h
          cases h

/-- C10: the interpretation of the `patterns` argument is decided solely by
whether its first element is a tuple — for every non-empty sequence whose
first element is not a tuple, `_normalize_patterns` compiles every element as
a bare pattern (automatic prematcher generation for all), regardless of the
shape of the later elements; and in every successful outcome of that branch
all prematcher slots are `None`.  (A tuple appearing later in such a sequence
is handed to `re.compile` and makes construction raise, as the witness shows.) -/
theorem normalize_patterns_first_element_decides (first : PatternsItem)
    (rest : List PatternsItem) (h : isTuple first = false) :
    normalize_patterns (PatternsArg.ofList (first :: rest)) =
      (first :: rest).mapM compileBare ∧
    ∀ result, (first :: rest).mapM compileBare = Except.ok result →
      ∀ x ∈ result, x.2 = none := by
  constructor
  · simp only [normalize_patterns, pyIter, h, if_pos]
  · exact fun result hres => mapM_compileBare_auto _ result hres

/-- Witness for `normalize_patterns_first_element_decides`: the mixed input
`["a", ("b", None)]` begins with a bare pattern, so the whole input is handed
to the bare branch — where compiling the tuple `("b", None)` raises, showing
the later element's shape did not change the branch decision. -/
theorem normalize_patterns_first_element_decides_witness :
    normalize_patterns (PatternsArg.ofList
      [PatternsItem.pat "a", PatternsItem.pair "b" none]) =
      [PatternsItem.pat "a", PatternsItem.pair "b" none].mapM compileBare ∧
    exceptIsErr (normalize_patterns (PatternsArg.ofList
      [PatternsItem.pat "a", PatternsItem.pair "b" none])) = true := by
  refine ⟨(normalize_patterns_first_element_decides
    (PatternsItem.pat "a") [PatternsItem.pair "b" none] (by rfl)).1, by rfl⟩

/-- Embeds `patterns_without_prematchers` of `RegexMatcher.__init__` (current
revision, lines 95-99): the registration indices whose prematcher set is empty
(`if not prematchers`).  These patterns bypass prematching entirely. -/
def patterns_without_prematchers (prematchers : List (List String)) : List Nat :=
  (List.range prematchers.length).filter
    (fun idx => (prematchers.getD idx []).isEmpty)

/-- Embeds `_make_automaton` (current revision, lines 155-165): the
`defaultdict(set)` mapping each registered prematcher string to the set of
`(pattern_idx, pattern)` pairs that registered it, here as an association list
from needle to the ascending list of registration indices.  Key order models
dict insertion order; only key membership and the value sets matter downstream. -/
def make_automaton (prematchers : List (List String)) :
    List (String × List Nat) :=
  prematchers.flatten.dedup.map (fun w =>
    (w, (List.range prematchers.length).filter
      (fun idx => decide (w ∈ prematchers.getD idx []))))

/-- Set-level model of pyahocorasick's `automaton.iter(t)`: the scan reports
every occurrence of every registered needle in `t`.  The resolver only unions
the associated value sets, so the model keeps one `(needle, values)` entry per
needle present in `t`, which has the same union. -/
def automaton_scan (automaton : List (String × List Nat)) (t : String) :
    List (String × List Nat) :=
  automaton.filter (fun wv => strContains t wv.1)

/-- Embeds `RegexMatcher.get_pattern_candidates` (current revision, lines
209-220): scan `s.lower()` (the current revision does not strip non-ASCII
characters), union the hit sets with the patterns that have no prematchers,
and sort by registration index.  Since every index is drawn from
`range(len(patterns))` and indices are distinct, `sorted(unordered_set,
key=pattern_idx)` is exactly the filter of `range` by membership in the union,
which is how the final line is written here. -/
def get_pattern_candidates (prematchers : List (List String)) (s : String) :
    List Nat :=
  let hits := automaton_scan (make_automaton prematchers) (pyLower s)
  let unordered := patterns_without_prematchers prematchers ++
    (hits.map Prod.snd).flatten
  (List.range prematchers.length).filter (fun idx => decide (idx ∈ unordered))

/-- Resolver following the words of the spec's claim C3 (spec section 4.3):
identical to `get_pattern_candidates` except that the text handed to the
automaton scan is normalized by lowercasing and dropping every non-ASCII
character.  This is the behaviour of the historical revision
(`src/src/multiregex/__init__.py`, lines 200-205 with `to_lowercase_ascii`);
it is stated here for comparison against the embedded current code. -/
def get_pattern_candidates_specnorm (prematchers : List (List String))
    (s : String) : List Nat :=
  let hits := automaton_scan (make_automaton prematchers) (to_lowercase_ascii s)
  let unordered := patterns_without_prematchers prematchers ++
    (hits.map Prod.snd).flatten
  (List.range prematchers.length).filter (fun idx => decide (idx ∈ unordered))

/-- Embeds `RegexMatcher.run` (current revision, lines 167-200), without the
profiling side effects (see `RegexMatcher.runProfiled` for those): pick the
candidates (all patterns when prematching is disabled), apply the external
match operation to each, and keep the pairs whose match is not `None`.  The
per-operation inlining of `re.search` / `re.match` / `re.fullmatch` in the
source applies the same expression shape to a different external callable, so
all match operations are covered by the abstract `match_func`. -/
def RegexMatcher.run (prematchers : List (List String))
    (match_func : Nat → String → Option α) (s : String)
    (enable_prematchers : Bool) : List (Nat × α) :=
  let candidates := if enable_prematchers then
    get_pattern_candidates prematchers s else List.range prematchers.length
  let re_results := candidates.map (fun p => (p, match_func p s))
  re_results.filterMap (fun pr =>
    match pr with
    | (p, some m) => some (p, m)
    | (_, none) => none)

/-- One profiling update of `RegexMatcher.run` (lines 194-198): the attempted
pattern's `positives` counter is incremented, and its `false_positives`
counter too when the match failed.  `counters` holds, per registration index,
the pair `(positives, false_positives)`. -/
def bumpCounters (counters : List (Nat × Nat)) (idx : Nat) (miss : Bool) :
    List (Nat × Nat) :=
  counters.set idx ((counters.getD idx (0, 0)).1 + 1,
    (counters.getD idx (0, 0)).2 + (if miss then 1 else 0))

/-- Embeds `RegexMatcher.run` with
`count_prematcher_false_positives = True` and prematching enabled: same result
list as `RegexMatcher.run`, plus the updated false-positive counters (every
attempted candidate counts one positive; every attempted candidate whose match
is `None` counts one false positive). -/
def RegexMatcher.runProfiled (prematchers : List (List String))
    (match_func : Nat → String → Option α) (s : String)
    (counters : List (Nat × Nat)) : List (Nat × α) × List (Nat × Nat) :=
  let candidates := get_pattern_candidates prematchers s
  let re_results := candidates.map (fun p => (p, match_func p s))
  (re_results.filterMap (fun pr =>
    match pr with
    | (p, some m) => some (p, m)
    | (_, none) => none),
   re_results.foldl (fun cs pr => bumpCounters cs pr.1 pr.2.isNone) counters)

/-- Embeds the body of `RegexMatcher.get_prematcher_false_positives` (current
revision, lines 227-234) for a profiling-enabled matcher: keep the patterns
with a non-zero false-positive count (dict iteration order is registration
order) and sort by descending false-positive count (`key=lambda x:
-x[1]["false_positives"]`, a stable sort).  Entries are
`(registration index, positives, false_positives)`. -/
def fpReport (counters : List (Nat × Nat)) : List (Nat × Nat × Nat) :=
  (counters.enum.filter (fun e => decide (e.2.2 ≠ 0))).insertionSort
    (fun a b => b.2.2 ≤ a.2.2)

/-- Embeds `RegexMatcher.get_prematcher_false_positives` (lines 222-234): a
`RuntimeError` when profiling was not enabled at construction, otherwise the
sorted report. -/
def RegexMatcher.get_prematcher_false_positives
    (count_prematcher_false_positives : Bool)
    (counters : List (Nat × Nat)) : Except String (List (Nat × Nat × Nat)) :=
  if count_prematcher_false_positives = false then
    Except.error "Prematcher profiling not enabled"
  else Except.ok (fpReport counters)

/-- Test lemma: candidate resolution on two patterns with prematchers
`{"a"}` and `{"aa"}`: the text `"A"` lowercases to `"a"` and hits only the
first; `"aa"` hits both; `"b"` hits none. -/
example :
    get_pattern_candidates [["a"], ["aa"]] "A" = [0] ∧
    get_pattern_candidates [["a"], ["aa"]] "aa" = [0, 1] ∧
    get_pattern_candidates [["a"], ["aa"]] "b" = [] := by
  exact ⟨by rfl, by rfl, by rfl⟩

/-- Test lemma: a pattern with an empty prematcher set is always a candidate. -/
example : get_pattern_candidates [["zz"], []] "b" = [1] := by rfl

/-- Characterization of the automaton hit union: a registration index is
reported for text `t` exactly when it is in range and one of its prematchers
occurs in `t`. -/
theorem mem_automaton_hits (prematchers : List (List String)) (t : String)
    (idx : Nat) :
    idx ∈ ((automaton_scan (make_automaton prematchers) t).map
        Prod.snd).flatten ↔
      idx < prematchers.length ∧
        ∃ w ∈ prematchers.getD idx [], strContains t w = true := by
  simp only [automaton_scan, make_automaton, List.mem_flatten, List.mem_map,
    List.mem_filter, List.mem_dedup]
  constructor
  · rintro ⟨vals, ⟨wv, ⟨⟨w, hwmem, rfl⟩, hcont⟩, rfl⟩, hidx⟩
    simp only [List.mem_filter, List.mem_range, decide_eq_true_eq] at hidx
    exact ⟨hidx.1, w, hidx.2, hcont⟩
  · rintro ⟨hlt, w, hw, hcont⟩
    refine ⟨(List.range prematchers.length).filter
      (fun j => decide (w ∈ prematchers.getD j [])), ⟨(w, _), ⟨⟨w, ?_, rfl⟩, hcont⟩, rfl⟩, ?_⟩
    · exact ⟨prematchers.getD idx [],
        by rw [List.getD_eq_getElem _ _ hlt]; exact List.getElem_mem hlt, hw⟩
    · simp only [List.mem_filter, List.mem_range, decide_eq_true_eq]
      exact ⟨hlt, hw⟩

/-- Characterization of the candidate resolver: a registration index is a
candidate for `s` exactly when it is in range and either its prematcher set is
empty or one of its prematchers occurs in the lowercased text. -/
theorem mem_get_pattern_candidates (prematchers : List (List String))
    (s : String) (idx : Nat) :
    idx ∈ get_pattern_candidates prematchers s ↔
      idx < prematchers.length ∧
        (prematchers.getD idx [] = [] ∨
         ∃ w ∈ prematchers.getD idx [], strContains (pyLower s) w = true) := by
  simp only [get_pattern_candidates, List.mem_filter, List.mem_range,
    decide_eq_true_eq, List.mem_append]
  constructor
  · rintro ⟨hlt, hmem | hmem⟩
    · simp only [patterns_without_prematchers, List.mem_filter, List.mem_range,
        List.isEmpty_iff] at hmem
      exact ⟨hlt, Or.inl hmem.2⟩
    · exact ⟨hlt, Or.inr ((mem_automaton_hits prematchers (pyLower s) idx).mp
        hmem).2⟩
  · rintro ⟨hlt, hempty | hhit⟩
    · refine ⟨hlt, Or.inl ?_⟩
      simp only [patterns_without_prematchers, List.mem_filter, List.mem_range,
        List.isEmpty_iff]
      exact ⟨hlt, hempty⟩
    · exact ⟨hlt, Or.inr ((mem_automaton_hits prematchers (pyLower s) idx).mpr
        ⟨hlt, hhit⟩)⟩

/-- The matching facade, rewritten as a `filterMap` over its candidate list. -/
theorem run_eq_filterMap (prematchers : List (List String))
    (match_func : Nat → String → Option α) (s : String)
    (enable_prematchers : Bool) :
    RegexMatcher.run prematchers match_func s enable_prematchers =
      (if enable_prematchers then get_pattern_candidates prematchers s
       else List.range prematchers.length).filterMap
        (fun idx => (match_func idx s).map (fun m => (idx, m))) := by
  unfold RegexMatcher.run
  rw [List.filterMap_map]
  congr 1
  funext idx
  show (match (idx, match_func idx s) with
    | (p, some m) => some (p, m)
    | (_, none) => none) = _
  cases match_func idx s <;> rfl

/-- Helper: filtering a list before a `filterMap` does not change the result
when the dropped elements are mapped to `none` anyway. -/
theorem filterMap_filter_of_none (g : Nat → Option β) (p : Nat → Bool)
    (l : List Nat) (h : ∀ a ∈ l, p a = false → g a = none) :
    (l.filter p).filterMap g = l.filterMap g := by
  induction l with
  | nil => rfl
  | cons a t ih =>
      have ht : ∀ x ∈ t, p x = false → g x = none :=
        fun x hx => h x (List.mem_cons_of_mem _ hx)
      cases hp : p a with
      | false =>
          rw [List.filter_cons_of_neg (by simp [hp]), List.filterMap_cons,
            h a (List.mem_cons_self _ _) hp, ih ht]
      | true =>
          rw [List.filter_cons_of_pos (by simp [hp]), List.filterMap_cons,
            List.filterMap_cons, ih ht]

/-- C1 amended: if every pattern whose regex can match `s` satisfies the
necessity condition stated with respect to the code's own scan normalization
(its prematcher set is empty, or one of its prematchers occurs in the
lowercased, non-ASCII-preserving text), then running any match operation with
prematching enabled returns exactly the same `(pattern, match)` list as
running it with prematching disabled; and in particular every matching
pattern's index is in the candidate set the resolver returns for `s`.
Under the spec's necessity condition, which additionally ignores non-ASCII
characters, the equivalence fails on the code: see the counterexample theorem
at the end of this file. -/
theorem run_prematching_equivalence (prematchers : List (List String))
    (match_func : Nat → String → Option α) (s : String)
    (hsound : ∀ idx, idx < prematchers.length →
      (match_func idx s).isSome = true →
        prematchers.getD idx [] = [] ∨
        ∃ w ∈ prematchers.getD idx [], strContains (pyLower s) w = true) :
    RegexMatcher.run prematchers match_func s true =
      RegexMatcher.run prematchers match_func s false ∧
    ∀ idx, idx < prematchers.length → (match_func idx s).isSome = true →
      idx ∈ get_pattern_candidates prematchers s := by
  constructor
  · rw [run_eq_filterMap, run_eq_filterMap, if_pos rfl,
      if_neg (by simp)]
    show ((List.range prematchers.length).filter _).filterMap _ = _
    refine filterMap_filter_of_none _ _ _ ?_
    intro idx hmem hp
    have hlt : idx < prematchers.length := List.mem_range.mp hmem
    have hnotc : idx ∉ get_pattern_candidates prematchers s := by
      intro hc
      have := (List.mem_filter.mp hc).2
      rw [hp] at this
      cases this
    have hnone : match_func idx s = none := by
      by_contra hne
      have hsome : (match_func idx s).isSome = true :=
        Option.isSome_iff_ne_none.mpr hne
      exact hnotc ((mem_get_pattern_candidates prematchers s idx).mpr
        ⟨hlt, hsound idx hlt hsome⟩)
    rw [hnone]
    rfl
  · intro idx hlt hsome
    exact (mem_get_pattern_candidates prematchers s idx).mpr
      ⟨hlt, hsound idx hlt hsome⟩

/-- External match operation used in the witness for
`run_prematching_equivalence`: pattern 0 (think `re.search` with regex `"a"`)
matches exactly the text `"a"`. -/
def matchFuncSingleA : Nat → String → Option Unit :=
  fun idx t => if idx = 0 ∧ t = "a" then some () else none

/-- Witness for `run_prematching_equivalence`: one pattern with prematcher set
`{"a"}` and the text `"a"`; the necessity hypothesis holds (the prematcher
`"a"` occurs in the text) and the theorem yields the filtered = unfiltered
equality. -/
theorem run_prematching_equivalence_witness :
    RegexMatcher.run [["a"]] matchFuncSingleA "a" true =
      RegexMatcher.run [["a"]] matchFuncSingleA "a" false :=
  (run_prematching_equivalence [["a"]] matchFuncSingleA "a" (by decide)).1

/-- Helper: the first components of the facade's result list form a sublist of
the candidate list it ran over. -/
theorem run_fst_sublist (l : List Nat) (f : Nat → Option α) :
    ((l.filterMap (fun idx => (f idx).map (fun m => (idx, m)))).map
      Prod.fst).Sublist l := by
  induction l with
  | nil => simp
  | cons a t ih =>
      cases hf : f a with
      | none =>
          rw [List.filterMap_cons, hf]
          exact ih.cons a
      | some m =>
          rw [List.filterMap_cons, hf]
          simpa using ih.cons₂ a

/-- C7: for every construction-time input (hence under any shuffling of the
registered patterns, since the statement quantifies over all prematcher
assignments) and every query text, the candidate list is strictly increasing
in registration index, and so is the `(pattern, match)` list that the matching
facade returns with prematching enabled. -/
theorem candidates_strictly_increasing (prematchers : List (List String))
    (match_func : Nat → String → Option α) (s : String) :
    List.Pairwise (fun a b => a < b) (get_pattern_candidates prematchers s) ∧
    List.Pairwise (fun a b => a < b)
      ((RegexMatcher.run prematchers match_func s true).map Prod.fst) := by
  have hcand : List.Pairwise (fun a b => a < b)
      (get_pattern_candidates prematchers s) := by
    unfold get_pattern_candidates
    exact (List.pairwise_lt_range prematchers.length).filter _
  refine ⟨hcand, ?_⟩
  rw [run_eq_filterMap, if_pos rfl]
  exact List.Pairwise.sublist (run_fst_sublist
    (get_pattern_candidates prematchers s) (fun idx => match_func idx s)) hcand

/-- C3 counterexample: a matcher whose single pattern has the prematcher
`"ä"` (which the validator accepts, see
`validate_prematcher_accepts_nonascii`).  On the query text `"ä"` the current
code hands `"ä".lower() = "ä"` to the automaton scan and resolves pattern 0 as
a candidate, whereas under the claimed normalization (lowercase and drop
non-ASCII, i.e. scan input `""`) no needle occurs and the candidate set is
empty.  So the string handed to the scan is not the claimed normalized text. -/
theorem scan_input_keeps_nonascii :
    pyLower "ä" = "ä" ∧ to_lowercase_ascii "ä" = "" ∧
    get_pattern_candidates [["ä"]] "ä" = [0] ∧
    get_pattern_candidates_specnorm [["ä"]] "ä" = [] := by
  exact ⟨by rfl, by rfl, by rfl, by rfl⟩

/-- Helper: `Char.ofNat` of a code point below the surrogate range round-trips
through `Char.toNat`. -/
theorem charOfNatRoundtrip (n : Nat) (h : n < 55296) :
    (Char.ofNat n).toNat = n := by
  unfold Char.ofNat
  rw [dif_pos (Or.inl h : Nat.isValidChar n)]
  rfl

/-- Helper: lowercasing maps ASCII characters to ASCII characters. -/
theorem pyCharLower_ascii (c : Char) (h : c.toNat < 128) :
    (pyCharLower c).toNat < 128 := by
  unfold pyCharLower
  by_cases hu : pyIsUpper c = true
  · rw [if_pos hu]
    have hrange : 65 ≤ c.toNat ∧ c.toNat ≤ 90 := by
      unfold pyIsUpper at hu
      simp only [Bool.or_eq_true, Bool.and_eq_true, decide_eq_true_eq] at hu
      rcases hu with h12 | hlat
      · exact h12
      · omega
    rw [charOfNatRoundtrip _ (by omega)]
    omega
  · rw [if_neg hu]
    exact h

/-- C3 amended: the current code hands `s.lower()` to the automaton scan with
non-ASCII characters preserved; this agrees with the claimed
lowercase-and-drop-non-ASCII normalization exactly on ASCII-only query texts,
for which the resolver of the embedded code and the spec-normalized resolver
coincide. -/
theorem get_pattern_candidates_ascii_agreement
    (prematchers : List (List String)) (s : String)
    (h : asciiOnly s = true) :
    get_pattern_candidates prematchers s =
      get_pattern_candidates_specnorm prematchers s := by
  have hnorm : to_lowercase_ascii s = pyLower s := by
    unfold to_lowercase_ascii pyLower
    congr 1
    apply List.filter_eq_self.mpr
    intro c hc
    rcases List.mem_map.mp hc with ⟨c0, hc0, rfl⟩
    have : c0.toNat < 128 := by
      have := List.all_eq_true.mp h c0 hc0
      simpa using this
    simpa using pyCharLower_ascii c0 this
  unfold get_pattern_candidates get_pattern_candidates_specnorm
  rw [hnorm]

/-- Witness for `get_pattern_candidates_ascii_agreement`: the ASCII text
`"Aa"` satisfies the hypothesis, and the two resolvers agree on it for a
concrete matcher. -/
theorem get_pattern_candidates_ascii_agreement_witness :
    asciiOnly "Aa" = true ∧
    get_pattern_candidates [["a"], ["b"]] "Aa" =
      get_pattern_candidates_specnorm [["a"], ["b"]] "Aa" :=
  ⟨by rfl, get_pattern_candidates_ascii_agreement [["a"], ["b"]] "Aa" (by rfl)⟩

/-- External `re.match` behaviour of the pattern `"(a|a)a"`: an anchored match
exists precisely when the text starts with `"aa"` (both alternatives of the
group are the letter `a`). -/
def matchParenAA (s : String) : Option Unit :=
  if List.IsPrefix "aa".toList s.toList then some () else none

/-- External `re.match` behaviour of the pattern `"aa"`: an anchored match
exists precisely when the text starts with `"aa"`. -/
def matchPlainAA (s : String) : Option Unit :=
  if List.IsPrefix "aa".toList s.toList then some () else none

/-- The two-pattern match function of the profiling scenario: registration
index 0 is `"(a|a)a"`, registration index 1 is `"aa"`. -/
def matchFuncScenario : Nat → String → Option Unit
  | 0, s => matchParenAA s
  | 1, s => matchPlainAA s
  | _, _ => none

/-- The generated prematcher sets of the profiling scenario:
`generate_prematchers` gives `{"a"}` for `"(a|a)a"` (the top-level terminal
after the group boundary) and `{"aa"}` for `"aa"`. -/
def scenarioPrematchers : List (List String) := [["a"], ["aa"]]

/-- Test lemma: the stated prematcher of `"(a|a)a"` is what the generator
produces on its AST `[(SUBPATTERN, (1, 0, 0, [BRANCH [[a]], [[a]]])), (LITERAL, 97)]`. -/
example :
    generate_prematchers
      [SreNode.subpattern 1 0 0
        [SreNode.branch [[SreNode.literal 97], [SreNode.literal 97]]],
       SreNode.literal 97] = Except.ok ["a"] ∧
    generate_prematchers [SreNode.literal 97, SreNode.literal 97] =
      Except.ok ["aa"] := by
  exact ⟨by rfl, by rfl⟩

/-- C8: with profiling enabled, querying `"a"`, `"aa"`, `"baa"` in turn (the
anchored `match` operation) leaves the counters at 3 attempts / 2 misses for
`"(a|a)a"` and 2 attempts / 1 miss for `"aa"` — the displayed false-positive
rates misses/attempts are 2/3 (formatted `0.67`) and 1/2 (formatted `0.50`).
The candidate sets are: `"a"` hits only prematcher `"a"`; `"aa"` and `"baa"`
hit both prematchers. -/
theorem false_positive_counters_scenario :
    (RegexMatcher.runProfiled scenarioPrematchers matchFuncScenario "baa"
      ((RegexMatcher.runProfiled scenarioPrematchers matchFuncScenario "aa"
        ((RegexMatcher.runProfiled scenarioPrematchers matchFuncScenario "a"
          [(0, 0), (0, 0)]).2)).2)).2 = [(3, 2), (2, 1)] := by rfl

/-- C9: requesting the false-positive report with profiling disabled fails
with the `RuntimeError`; with profiling enabled it returns the report, whose
entries are sorted by descending false-positive count. -/
theorem false_positive_report_spec (counters : List (Nat × Nat)) :
    RegexMatcher.get_prematcher_false_positives false counters =
      Except.error "Prematcher profiling not enabled" ∧
    RegexMatcher.get_prematcher_false_positives true counters =
      Except.ok (fpReport counters) ∧
    List.Pairwise (fun a b => b.2.2 ≤ a.2.2) (fpReport counters) := by
  refine ⟨rfl, rfl, ?_⟩
  unfold fpReport
  letI : IsTotal (Nat × Nat × Nat) (fun a b => b.2.2 ≤ a.2.2) :=
    ⟨fun a b => le_total b.2.2 a.2.2⟩
  letI : IsTrans (Nat × Nat × Nat) (fun a b => b.2.2 ≤ a.2.2) :=
    ⟨fun _ _ _ hab hbc => le_trans hbc hab⟩
  exact List.sorted_insertionSort _ _

/-- External `re.search` behaviour of a regex that matches exactly the texts
containing the substring `"aäb"` (think of the regex source `"aäb"` itself),
registered at index 0. -/
def matchFuncAUmlautB : Nat → String → Option Unit :=
  fun idx s => if idx = 0 ∧ strContains s "aäb" = true then some () else none

/-- Helper: `to_lowercase_ascii` preserves substring containment — if `n`
occurs in `h`, then the normalized `n` occurs in the normalized `h` (the
normalization is a character-wise map followed by a filter, both of which
distribute over the infix decomposition). -/
theorem to_lowercase_ascii_infix (n h : String)
    (hinf : strContains h n = true) :
    strContains (to_lowercase_ascii h) (to_lowercase_ascii n) = true := by
  unfold strContains at hinf ⊢
  rw [decide_eq_true_eq] at hinf ⊢
  rcases hinf with ⟨l, r, heq⟩
  refine ⟨(l.map pyCharLower).filter (fun c => c.toNat < 128),
          (r.map pyCharLower).filter (fun c => c.toNat < 128), ?_⟩
  have hh : (to_lowercase_ascii h).toList =
      (h.toList.map pyCharLower).filter (fun c => c.toNat < 128) := rfl
  have hn : (to_lowercase_ascii n).toList =
      (n.toList.map pyCharLower).filter (fun c => c.toNat < 128) := rfl
  rw [hh, hn, ← heq]
  simp [List.map_append, List.filter_append]

/-- Helper: the prematcher assignment `[["ab"]]` for `matchFuncAUmlautB`
satisfies the spec's necessity condition for every text: whenever the regex
can match `s`, the prematcher `"ab"` occurs in `s` lowercased with non-ASCII
characters dropped (spec section 3: a prematcher is a substring of every
matched text "case-insensitively and ignoring non-ASCII characters"). -/
theorem matchFuncAUmlautB_spec_necessity (idx : Nat) (s : String)
    (hmatch : (matchFuncAUmlautB idx s).isSome = true) :
    ∃ w ∈ ([["ab"]] : List (List String)).getD idx [],
      strContains (to_lowercase_ascii s) w = true := by
  by_cases hcond : idx = 0 ∧ strContains s "aäb" = true
  · rcases hcond with ⟨hidx, hc⟩
    subst hidx
    refine ⟨"ab", by simp, ?_⟩
    have h := to_lowercase_ascii_infix "aäb" s hc
    rw [show to_lowercase_ascii "aäb" = "ab" from rfl] at h
    exact h
  · unfold matchFuncAUmlautB at hmatch
    rw [if_neg hcond] at hmatch
    cases hmatch

/-- C1 counterexample: under the spec's own necessity condition (substring of
the text lowercased and with non-ASCII characters ignored), the claim is false
of the code.  The prematcher `"ab"` for a regex matching exactly the texts
containing `"aäb"` passes validation and satisfies the spec's necessity
condition for every text (see `matchFuncAUmlautB_spec_necessity`); at the
concrete query `"aäb"` the regex matches and the spec-normalized text `"ab"`
contains the prematcher — yet the code scans `"aäb".lower() = "aäb"` in which
`"ab"` does not occur, so the resolver drops the pattern and the filtered run
differs from the unfiltered run. -/
theorem run_prematching_spec_necessity_counterexample :
    validate_prematcher "ab" = Except.ok () ∧
    strContains (to_lowercase_ascii "aäb") "ab" = true ∧
    strContains (pyLower "aäb") "ab" = false ∧
    (matchFuncAUmlautB 0 "aäb").isSome = true ∧
    get_pattern_candidates [["ab"]] "aäb" = [] ∧
    RegexMatcher.run [["ab"]] matchFuncAUmlautB "aäb" true = [] ∧
    RegexMatcher.run [["ab"]] matchFuncAUmlautB "aäb" false = [(0, ())] := by
  exact ⟨by rfl, by rfl, by rfl, by rfl, by rfl, by rfl, by rfl⟩
